import Mathlib

/-!
Shallow embedding of src/webextension/js/background.js (GSConnect Chrome
MV3 bridge): device roster, channel supervisor (connect / onDisconnect /
reconnect backoff), message relay (postMessage / onPopupMessage /
onPortMessage / onContextItem) and context-menu construction
(createContextMenu).

Conventions of the embedding:
- JS strings are Lean String; possibly-undefined values are Option.
- Browser-side effects (badge, menu creation, timer arming/clearing,
  message forwarding) are returned as explicit event lists or output
  lists instead of being performed.
- setTimeout handles are modelled by the Option of the scheduled delay:
  "typeof t === 'number'" becomes Option.isSome.
- Localized string lookup (browser.i18n.getMessage) is an external
  collaborator; a title is represented by the message key and the
  substitution strings passed to the lookup, not by the localized text.
-/

namespace GSConnect

/-- A paired device as reported by the native messaging host:
line 114-115 / 157-158 of background.js read fields id, name, share,
telephony. -/
structure Device where
  id : String
  name : String
  share : Bool
  telephony : Bool
deriving DecidableEq, Repr

/-- The data slot of a share command: background.js line 90-94. -/
structure ShareData where
  device : Option String
  url : Option String
  action : Option String
deriving DecidableEq, Repr

/-- Payload of a message exchanged with the native messaging host. -/
inductive MsgData
  | none
  | bool (b : Bool)
  | devices (ds : List Device)
  | share (d : ShareData)
deriving DecidableEq, Repr

/-- A message handed to postMessage; the type field may be absent
(undefined) and is checked for truthiness at line 54. -/
structure Msg where
  type : Option String
  data : MsgData
deriving DecidableEq, Repr

/-- The outbound roster request sent at lines 209 and 266:
postMessage(\x7btype: 'devices'\x7d). -/
def devicesRequest : Msg := { type := some "devices", data := MsgData.none }

/-- JS truthiness of an optional string: undefined and the empty string
are falsy, every other string is truthy. -/
def truthyStr : Option String → Bool
  | Option.none => false
  | Option.some s => !(s == "")

/-- postMessage (background.js lines 52-62): forwards the message to the
native-messaging-host port only when the port is present, the message is
present, and message.type is truthy; otherwise it warns and drops.
The Option result is the message actually written to the port
(none = warned and dropped). -/
def postMessage (hasPort : Bool) (message : Option Msg) : Option Msg :=
  match message with
  | Option.none => Option.none
  | Option.some m =>
      if !hasPort || !truthyStr m.type then Option.none
      else Option.some m

/-- The sender of a runtime message; sender.url may be undefined. -/
structure Sender where
  url : Option String
deriving DecidableEq, Repr

/-- JS String.includes on character lists: the needle occurs as a
contiguous run of the haystack. -/
def listIncludes (needle : List Char) : List Char → Bool
  | [] => needle.isEmpty
  | c :: rest => needle.isPrefixOf (c :: rest) || listIncludes needle rest

/-- The trust check of background.js line 67:
sender.url && sender.url.includes('/popup.html'). -/
def senderTrusted (sender : Sender) : Bool :=
  match sender.url with
  | Option.none => false
  | Option.some u => listIncludes "/popup.html".toList u.toList

/-- onPopupMessage (background.js lines 65-72): forwards a popup message
to postMessage only when the sender url contains '/popup.html'. The
result is the message actually written to the port, none otherwise. -/
def onPopupMessage (hasPort : Bool) (message : Option Msg)
    (sender : Sender) : Option Msg :=
  if senderTrusted sender then postMessage hasPort message
  else Option.none

/-- JS's s.split(sep) for a single-character separator, on the character
list of the string: "".split(c) = [""], "a:b".split(':') = ["a","b"],
":".split(':') = ["",""]. -/
def splitOnChar (sep : Char) : List Char → List (List Char)
  | [] => [[]]
  | c :: rest =>
      let r := splitOnChar sep rest
      if c = sep then [] :: r
      else
        match r with
        | [] => [[c]]
        | h :: t => (c :: h) :: t

/-- The OnClickData fields read by onContextItem (background.js
lines 87-92). -/
structure ClickInfo where
  menuItemId : String
  linkUrl : Option String
  srcUrl : Option String
  frameUrl : Option String
  pageUrl : Option String
deriving DecidableEq, Repr

/-- The JS chain a || b || c || d over optional strings: the first truthy
(present and non-empty) one, line 92 of background.js. -/
def firstTruthy : List (Option String) → Option String
  | [] => Option.none
  | o :: rest => if truthyStr o then o else firstTruthy rest

/-- onContextItem (background.js lines 85-99): splits the clicked menu
item id on ':' into device id and action, and builds the outbound share
command passed to postMessage. Destructuring const [id, action] takes
elements 0 and 1 of the split (undefined when missing). -/
def onContextItem (info : ClickInfo) : Msg :=
  let parts := splitOnChar ':' info.menuItemId.toList
  { type := some "share",
    data := MsgData.share
      { device := (parts.head?).map (fun l => String.mk l),
        url := firstTruthy
          [info.linkUrl, info.srcUrl, info.frameUrl, info.pageUrl],
        action := (parts[1]?).map (fun l => String.mk l) } }

/-- A context-menu title: the i18n message key and its substitutions
(localization itself is out of scope), or a raw string (a device name
used directly as title). -/
inductive Title
  | raw (s : String)
  | msg (key : String)
  | msgSub (key : String) (subs : List String)
deriving DecidableEq, Repr

/-- The _CONTEXTS constant of background.js lines 9-16. -/
def CONTEXTS : List String :=
  ["audio", "page", "frame", "link", "image", "video"]

/-- An entry passed to browser.contextMenus.create: id, title, optional
parentId, and the contexts list ([] when the call omits it). -/
structure MenuEntry where
  id : String
  title : Title
  parentId : Option String
  contexts : List String
deriving DecidableEq, Repr

/-- The _ABOUT test of background.js line 8: the regex
/^chrome:|^about:/ matches urls starting with "chrome:" or "about:". -/
def isAboutUrl (url : String) : Bool :=
  "chrome:".toList.isPrefixOf url.toList
    || "about:".toList.isPrefixOf url.toList

/-- A browser tab; only the url field is read by createContextMenu. -/
structure Tab where
  url : String
deriving DecidableEq, Repr

/-- The single-capability plugin action chosen at lines 136-143 /
179-186: 'share' when device.share is truthy, otherwise 'telephony'
(also when both flags are false). -/
def pluginAction (d : Device) : String :=
  if d.share then "share" else "telephony"

/-- The pluginName message key paired with pluginAction
(shareMessage / smsMessage). -/
def pluginNameKey (d : Device) : String :=
  if d.share then "shareMessage" else "smsMessage"

/-- The entries one device contributes in the multi-device branch
(background.js lines 114-155): a per-device submenu with two leaves when
it has both capabilities, else one leaf directly under the grouping
root. -/
def multiDeviceEntries (d : Device) : List MenuEntry :=
  if d.share && d.telephony then
    [{ id := d.id, title := Title.raw d.name,
       parentId := some "contextMenuMultipleDevices", contexts := [] },
     { id := d.id ++ ":share", title := Title.msg "shareMessage",
       parentId := some d.id, contexts := CONTEXTS },
     { id := d.id ++ ":telephony", title := Title.msg "smsMessage",
       parentId := some d.id, contexts := CONTEXTS }]
  else
    [{ id := d.id ++ ":" ++ pluginAction d,
       title := Title.msgSub "contextMenuSinglePlugin"
         [d.name, pluginNameKey d],
       parentId := some "contextMenuMultipleDevices",
       contexts := CONTEXTS }]

/-- The entries created in the single-device branch (background.js
lines 156-197): a top-level submenu with two leaves when the device has
both capabilities, else one flat top-level leaf. -/
def singleDeviceEntries (d : Device) : List MenuEntry :=
  if d.share && d.telephony then
    [{ id := d.id, title := Title.raw d.name,
       parentId := Option.none, contexts := CONTEXTS },
     { id := d.id ++ ":share", title := Title.msg "shareMessage",
       parentId := some d.id, contexts := CONTEXTS },
     { id := d.id ++ ":telephony", title := Title.msg "smsMessage",
       parentId := some d.id, contexts := CONTEXTS }]
  else
    [{ id := d.id ++ ":" ++ pluginAction d,
       title := Title.msgSub "contextMenuSinglePlugin"
         [d.name, pluginNameKey d],
       parentId := Option.none, contexts := CONTEXTS }]

/-- The grouping root created at lines 109-113 in the multi-device
case. -/
def contextMenuRoot : MenuEntry :=
  { id := "contextMenuMultipleDevices",
    title := Title.msg "contextMenuMultipleDevices",
    parentId := Option.none, contexts := CONTEXTS }

/-- createContextMenu (background.js lines 102-201): after removing all
existing entries, builds the menu for the given tab from the device
roster; the result is the list of contextMenus.create calls in order. -/
def createContextMenu (tab : Tab) (devices : List Device) :
    List MenuEntry :=
  if isAboutUrl tab.url || devices.length == 0 then []
  else if 1 < devices.length then
    contextMenuRoot :: devices.flatMap multiDeviceEntries
  else
    match devices.head? with
    | Option.none => []
    | Option.some d => singleDeviceEntries d

/-- An inbound message from the native messaging host, as dispatched by
onPortMessage's type tests (lines 206 and 212): connected carries a
boolean, devices carries a device list, anything else is only
forwarded. -/
inductive InMsg
  | connected (data : Bool)
  | devices (data : List Device)
  | other (type : String) (data : MsgData)
deriving DecidableEq, Repr

/-- The global mutable state of background.js: the State object of
lines 23-27 plus the three module-level variables of lines 29-31. The
port is modelled by its presence; a timer variable holds the scheduled
delay when armed (typeof t === 'number') and none when null. -/
structure BgState where
  connected : Bool
  devices : List Device
  hasPort : Bool
  reconnectDelay : Nat
  reconnectTimer : Option Nat
  reconnectResetTimer : Option Nat
deriving DecidableEq, Repr

/-- The initial state: lines 23-31 of background.js. -/
def initialState : BgState :=
  { connected := false, devices := [], hasPort := false,
    reconnectDelay := 100, reconnectTimer := Option.none,
    reconnectResetTimer := Option.none }

/-- The outcome of onPortMessage: the updated global state, the
messages handed to postMessage (outbound requests), and the messages
forwarded to the popup via forwardPortMessage. -/
structure PortMsgResult where
  state : BgState
  requests : List Msg
  uiForwards : List InMsg
deriving DecidableEq, Repr

/-- onPortMessage (background.js lines 204-225): on type 'connected'
set the connected flag; when it is truthy request the device list with
postMessage(\x7btype:'devices'\x7d), otherwise clear the devices; on type
'devices' set connected true and replace the devices wholesale; always
forward the message to the popup (the subsequent menu rebuild is
createContextMenu, modelled separately). -/
def onPortMessage (msg : InMsg) (st : BgState) : PortMsgResult :=
  match msg with
  | InMsg.connected d =>
      if d then
        { state := { st with connected := d },
          requests := [devicesRequest], uiForwards := [msg] }
      else
        { state := { st with connected := d, devices := [] },
          requests := [], uiForwards := [msg] }
  | InMsg.devices ds =>
      { state := { st with connected := true, devices := ds },
        requests := [], uiForwards := [msg] }
  | InMsg.other _ _ =>
      { state := st, requests := [], uiForwards := [msg] }

/-- A timer slot: the reconnect timer (line 30) or the stabilization
reset timer (line 31). -/
inductive TimerKind
  | reconnect
  | stabilize
deriving DecidableEq, Repr

/-- An observable side effect of the channel supervisor. -/
inductive SupEvent
  | setErrorBadge
  | clearBadge
  | forwardConnectedFalse
  | removeAllMenus
  | clearTimer (which : TimerKind)
  | armTimer (which : TimerKind) (delay : Nat)
deriving DecidableEq, Repr

/-- onDisconnect (background.js lines 228-253): set connected false and
drop the port, show the error badge, forward \x7btype:'connected',
data:false\x7d to the popup, remove all menus, clear the stabilization
timer and any prior reconnect timer when armed, schedule connect after
reconnectDelay, then double reconnectDelay. Returns the new state and
the effect trace in program order. -/
def onDisconnect (st : BgState) : BgState × List SupEvent :=
  let st1 : BgState := { st with connected := false, hasPort := false }
  let resetCleared :=
    match st1.reconnectResetTimer with
    | Option.some _ =>
        ({ st1 with reconnectResetTimer := Option.none },
         [SupEvent.clearTimer TimerKind.stabilize])
    | Option.none => (st1, [])
  let st2 := resetCleared.1
  let reconCleared :=
    match st2.reconnectTimer with
    | Option.some _ =>
        ({ st2 with reconnectTimer := Option.none },
         [SupEvent.clearTimer TimerKind.reconnect])
    | Option.none => (st2, [])
  let st3 := reconCleared.1
  let st4 : BgState :=
    { st3 with reconnectTimer := Option.some st3.reconnectDelay,
               reconnectDelay := st3.reconnectDelay * 2 }
  (st4,
   SupEvent.setErrorBadge :: SupEvent.forwardConnectedFalse ::
     SupEvent.removeAllMenus ::
       resetCleared.2 ++ reconCleared.2 ++
         [SupEvent.armTimer TimerKind.reconnect st3.reconnectDelay])

/-- connect (background.js lines 256-270): open the native port, clear
the badge, arm the stabilization reset timer at 90% of the current
reconnectDelay (reconnectDelay * 0.9; exact here since the delay is a
multiple of 100), and request the device list. Returns the new state,
the effect trace, and the messages written to the port. -/
def connect (st : BgState) : BgState × List SupEvent × List Msg :=
  ({ st with hasPort := true,
             reconnectResetTimer :=
               Option.some (st.reconnectDelay * 9 / 10) },
   [SupEvent.clearBadge,
    SupEvent.armTimer TimerKind.stabilize (st.reconnectDelay * 9 / 10)],
   [devicesRequest])

/-- The stabilization timer callback of background.js lines 261-263
firing: when the timer is armed (the channel stayed open for 90% of the
delay without a disconnect), reconnectDelay is reset to 100. -/
def fireStabilization (st : BgState) : BgState :=
  if st.reconnectResetTimer.isSome then
    { st with reconnectDelay := 100, reconnectResetTimer := Option.none }
  else st

/-- N consecutive disconnect events with no intervening stabilization:
the state after iterating onDisconnect N times. -/
def iterDisconnect : Nat → BgState → BgState
  | 0, st => st
  | n + 1, st => (onDisconnect (iterDisconnect n st)).1

/-- True exactly on timer-arming effects for the reconnect timer. -/
def isReconnectArm : SupEvent → Bool
  | SupEvent.armTimer TimerKind.reconnect _ => true
  | _ => false

/-- Modelled from the spec: the outbound message types the spec
recognizes (section 4.2 / 6): share and devices. This definition follows
the spec's words, to compare against postMessage's own guard. -/
def recognizedOutboundType (t : String) : Bool :=
  t == "share" || t == "devices"

/- ------------------------------------------------------------------
Helper lemmas shared by the claim theorems.
------------------------------------------------------------------- -/

/-- The post-state of onDisconnect in closed form. -/
lemma onDisconnect_fst (st : BgState) : (onDisconnect st).1 =
    { st with
      connected := false, hasPort := false,
      reconnectResetTimer := Option.none,
      reconnectTimer := Option.some st.reconnectDelay,
      reconnectDelay := st.reconnectDelay * 2 } := by
  cases h1 : st.reconnectResetTimer <;> cases h2 : st.reconnectTimer <;>
    simp [onDisconnect, h1, h2]

/-- The effect trace of onDisconnect contains exactly one reconnect
timer arming, at the pre-state delay. -/
lemma onDisconnect_arms (st : BgState) :
    ((onDisconnect st).2).filter isReconnectArm =
      [SupEvent.armTimer TimerKind.reconnect st.reconnectDelay] := by
  cases h1 : st.reconnectResetTimer <;> cases h2 : st.reconnectTimer <;>
    simp [onDisconnect, h1, h2, isReconnectArm]

/-- Splitting a list that does not contain the separator yields the
whole list as the only part. -/
lemma splitOnChar_of_not_mem (sep : Char) (l : List Char)
    (h : sep ∉ l) : splitOnChar sep l = [l] := by
  induction l with
  | nil => rfl
  | cons c rest ih =>
      have hc : ¬ c = sep := fun e => h (e ▸ List.mem_cons_self c rest)
      have hr : sep ∉ rest := fun e => h (List.mem_cons_of_mem c e)
      simp [splitOnChar, hc, ih hr]

/-- Splitting peels off a separator-free lead segment as the first
part. -/
lemma splitOnChar_append_sep (sep : Char) (l1 l2 : List Char)
    (h : sep ∉ l1) :
    splitOnChar sep (l1 ++ sep :: l2) = l1 :: splitOnChar sep l2 := by
  induction l1 with
  | nil => simp [splitOnChar]
  | cons c rest ih =>
      have hc : ¬ c = sep := fun e => h (e ▸ List.mem_cons_self c rest)
      have hr : sep ∉ rest := fun e => h (List.mem_cons_of_mem c e)
      simp [splitOnChar, hc, ih hr]

/-- String append is associative (via the underlying lists). -/
lemma string_append_assoc (a b c : String) :
    a ++ b ++ c = a ++ (b ++ c) := by
  cases a; cases b; cases c
  show String.mk _ = String.mk _
  rw [List.append_assoc]

/- ------------------------------------------------------------------
Claim theorems.
------------------------------------------------------------------- -/

/-- Claim C1, counterexample: a device with share = false and
telephony = false is rendered — on an ordinary tab, createContextMenu
creates one leaf entry "dev1:telephony" for it instead of nothing, so
the device does contribute a menu entry. -/
theorem c1_counterexample :
    createContextMenu { url := "https://example.com" }
        [{ id := "dev1", name := "Phone", share := false,
           telephony := false }] =
      [{ id := "dev1:telephony",
         title := Title.msgSub "contextMenuSinglePlugin"
           ["Phone", "smsMessage"],
         parentId := Option.none, contexts := CONTEXTS }] ∧
    createContextMenu { url := "https://example.com" }
        [{ id := "dev1", name := "Phone", share := false,
           telephony := false }] ≠ [] := by
  constructor
  · rfl
  · decide

/-- Claim C1 (amended): a device whose share and telephony flags are
both false never contributes a per-device grouping entry, but it does
contribute exactly one leaf entry with action telephony — the code's
single-capability branch treats it as a telephony-only device — in both
the multi-device and the single-device case. -/
theorem c1_noCapability_renders_telephony_leaf (d : Device)
    (h1 : d.share = false) (h2 : d.telephony = false) :
    multiDeviceEntries d =
      [{ id := d.id ++ ":telephony",
         title := Title.msgSub "contextMenuSinglePlugin"
           [d.name, "smsMessage"],
         parentId := Option.some "contextMenuMultipleDevices",
         contexts := CONTEXTS }] ∧
    singleDeviceEntries d =
      [{ id := d.id ++ ":telephony",
         title := Title.msgSub "contextMenuSinglePlugin"
           [d.name, "smsMessage"],
         parentId := Option.none, contexts := CONTEXTS }] := by
  have hid : d.id ++ ":" ++ "telephony" = d.id ++ ":telephony" := by
    rw [string_append_assoc]
    rfl
  simp [multiDeviceEntries, singleDeviceEntries, pluginAction,
    pluginNameKey, h1, h2, hid]

/-- Witness for claim C1's amended theorem at a concrete device. -/
theorem c1_noCapability_renders_telephony_leaf_witness :
    multiDeviceEntries
        { id := "dev1", name := "Phone", share := false,
          telephony := false } =
      [{ id := "dev1" ++ ":telephony",
         title := Title.msgSub "contextMenuSinglePlugin"
           ["Phone", "smsMessage"],
         parentId := Option.some "contextMenuMultipleDevices",
         contexts := CONTEXTS }] ∧
    singleDeviceEntries
        { id := "dev1", name := "Phone", share := false,
          telephony := false } =
      [{ id := "dev1" ++ ":telephony",
         title := Title.msgSub "contextMenuSinglePlugin"
           ["Phone", "smsMessage"],
         parentId := Option.none, contexts := CONTEXTS }] :=
  c1_noCapability_renders_telephony_leaf
    { id := "dev1", name := "Phone", share := false, telephony := false }
    rfl rfl

/-- Claim C2, counterexample: onDisconnect does not clear the device
list — from a pre-state holding one device, the roster after
onDisconnect still holds that device, so it is not exactly
(connected = false, devices = []). -/
theorem c2_counterexample :
    ((onDisconnect
        { connected := true,
          devices := [{ id := "dev1", name := "Phone", share := true,
                        telephony := true }],
          hasPort := true, reconnectDelay := 100,
          reconnectTimer := Option.none,
          reconnectResetTimer := Option.none }).1).devices ≠ [] := by
  decide

/-- Claim C2 (amended): for every pre-state, after onDisconnect
completes, connected is false and the port is dropped, but the device
list is left unchanged rather than cleared; the stabilization timer and
any prior reconnect timer are cleared, and the effect trace arms
exactly one new reconnect timer (no duplicates), at the pre-state
delay. -/
theorem c2_onDisconnect_poststate (st : BgState) :
    ((onDisconnect st).1).connected = false ∧
    ((onDisconnect st).1).devices = st.devices ∧
    ((onDisconnect st).1).hasPort = false ∧
    ((onDisconnect st).1).reconnectResetTimer = Option.none ∧
    ((onDisconnect st).1).reconnectTimer =
      Option.some st.reconnectDelay ∧
    ((onDisconnect st).2).filter isReconnectArm =
      [SupEvent.armTimer TimerKind.reconnect st.reconnectDelay] := by
  rw [onDisconnect_fst]
  exact ⟨rfl, rfl, rfl, rfl, rfl, onDisconnect_arms st⟩

/-- Claim C3: starting from the initial delay of 100, after N
consecutive disconnects with no intervening stabilization the delay is
100 * 2 ^ N, and the Nth reconnect is scheduled at the delay held
before that doubling, 100 * 2 ^ (N - 1). -/
theorem c3_backoff_doubling (N : Nat) :
    (iterDisconnect N initialState).reconnectDelay = 100 * 2 ^ N ∧
    (1 ≤ N → (iterDisconnect N initialState).reconnectTimer =
      Option.some (100 * 2 ^ (N - 1))) := by
  induction N with
  | zero => exact ⟨rfl, fun h => absurd h (by decide)⟩
  | succ n ih =>
      refine ⟨?_, fun _ => ?_⟩
      · show (onDisconnect (iterDisconnect n initialState)).1.reconnectDelay = _
        rw [onDisconnect_fst]
        show (iterDisconnect n initialState).reconnectDelay * 2 = _
        rw [ih.1, pow_succ, Nat.mul_assoc]
      · show (onDisconnect (iterDisconnect n initialState)).1.reconnectTimer = _
        rw [onDisconnect_fst]
        show Option.some (iterDisconnect n initialState).reconnectDelay = _
        rw [ih.1]
        simp

/-- Witness for claim C3 at N = 2: delay 400 after two disconnects, the
second reconnect scheduled at 200. -/
theorem c3_backoff_doubling_witness :
    (iterDisconnect 2 initialState).reconnectDelay = 100 * 2 ^ 2 ∧
    (iterDisconnect 2 initialState).reconnectTimer =
      Option.some (100 * 2 ^ (2 - 1)) :=
  ⟨(c3_backoff_doubling 2).1, (c3_backoff_doubling 2).2 (by decide)⟩

/-- Claim C4: connect arms the stabilization timer at 90% of the
current delay; when it fires (the channel stayed open that long with no
disconnect) the delay is reset to the base 100, so the next disconnect
schedules its reconnect after 100 — and only then doubles to 200 —
rather than after the next doubling of the old delay. -/
theorem c4_stabilization_resets_backoff (st : BgState) :
    ((connect st).1).reconnectResetTimer =
      Option.some (st.reconnectDelay * 9 / 10) ∧
    (fireStabilization (connect st).1).reconnectDelay = 100 ∧
    ((onDisconnect (fireStabilization (connect st).1)).1).reconnectTimer =
      Option.some 100 ∧
    ((onDisconnect (fireStabilization (connect st).1)).1).reconnectDelay =
      200 := by
  refine ⟨rfl, ?_, ?_, ?_⟩ <;>
    simp [connect, fireStabilization, onDisconnect_fst]

/-- Claim C5: an inbound message with type connected and boolean data d
sets the roster's connected flag to d; when d is true it hands exactly
one devices request to postMessage, and when d is false it clears the
device list. -/
theorem c5_connected_message (st : BgState) (d : Bool) :
    ((onPortMessage (InMsg.connected d) st).state).connected = d ∧
    (onPortMessage (InMsg.connected d) st).requests =
      (if d then [devicesRequest] else []) ∧
    ((onPortMessage (InMsg.connected d) st).state).devices =
      (if d then st.devices else []) := by
  cases d <;> simp [onPortMessage]

/-- Claim C6, counterexample: with a port present, a message whose type
is the unrecognized string ping is still forwarded by postMessage, so
the forwarding condition is not the conjunction of a present channel
handle and a recognized type. -/
theorem c6_counterexample :
    (postMessage true
        (Option.some { type := Option.some "ping",
                       data := MsgData.none })).isSome = true ∧
    recognizedOutboundType "ping" = false := by
  decide

/-- Claim C6 (amended): postMessage forwards a message to the companion
process if and only if a channel handle is present and the message is
present with a truthy (non-empty) type string — it performs no check
against the recognized type set — and in every other case it drops the
message (warning only), forwarding nothing; what is forwarded is the
message itself, unmodified. -/
theorem c6_postMessage_guard (hasPort : Bool) (message : Option Msg) :
    ((postMessage hasPort message).isSome ↔
      hasPort = true ∧ ∃ m s, message = Option.some m ∧
        m.type = Option.some s ∧ ¬ s = "") ∧
    (postMessage hasPort message = Option.none ∨
      postMessage hasPort message = message) := by
  rcases message with _ | m
  · simp [postMessage]
  · cases hasPort
    · simp [postMessage]
    · cases htype : m.type with
      | none => simp [postMessage, truthyStr, htype]
      | some s =>
          by_cases hs : s = ""
          · subst hs
            simp [postMessage, truthyStr, htype]
          · simp [postMessage, truthyStr, htype, hs]

/-- Claim C7: a message whose sender does not pass the popup-surface
trust check is never handed to the channel — onPopupMessage forwards
nothing. -/
theorem c7_untrusted_sender_dropped (hasPort : Bool)
    (message : Option Msg) (sender : Sender)
    (h : senderTrusted sender = false) :
    onPopupMessage hasPort message sender = Option.none := by
  simp [onPopupMessage, h]

/-- Witness for claim C7 at a concrete untrusted sender url. -/
theorem c7_untrusted_sender_dropped_witness :
    senderTrusted { url := Option.some "https://evil.example/page.html" }
      = false ∧
    onPopupMessage true (Option.some devicesRequest)
      { url := Option.some "https://evil.example/page.html" }
      = Option.none :=
  ⟨by decide,
   c7_untrusted_sender_dropped true (Option.some devicesRequest)
     { url := Option.some "https://evil.example/page.html" } (by decide)⟩

/-- Claim C8: for a roster of exactly two devices, each with share and
telephony true, and a non-internal tab, createContextMenu produces the
grouping root, one per-device subgroup per device, and the four leaves
with identifiers id:share and id:telephony for each device id. -/
theorem c8_two_full_devices_menu (d1 d2 : Device) (tab : Tab)
    (h1 : d1.share = true) (h2 : d1.telephony = true)
    (h3 : d2.share = true) (h4 : d2.telephony = true)
    (h5 : isAboutUrl tab.url = false) :
    createContextMenu tab [d1, d2] =
      [contextMenuRoot,
       { id := d1.id, title := Title.raw d1.name,
         parentId := Option.some "contextMenuMultipleDevices",
         contexts := [] },
       { id := d1.id ++ ":share", title := Title.msg "shareMessage",
         parentId := Option.some d1.id, contexts := CONTEXTS },
       { id := d1.id ++ ":telephony", title := Title.msg "smsMessage",
         parentId := Option.some d1.id, contexts := CONTEXTS },
       { id := d2.id, title := Title.raw d2.name,
         parentId := Option.some "contextMenuMultipleDevices",
         contexts := [] },
       { id := d2.id ++ ":share", title := Title.msg "shareMessage",
         parentId := Option.some d2.id, contexts := CONTEXTS },
       { id := d2.id ++ ":telephony", title := Title.msg "smsMessage",
         parentId := Option.some d2.id, contexts := CONTEXTS }] := by
  simp [createContextMenu, h5, multiDeviceEntries, h1, h2, h3, h4]

/-- Witness for claim C8 at two concrete devices and an ordinary
tab. -/
theorem c8_two_full_devices_menu_witness :
    createContextMenu { url := "https://example.com" }
        [{ id := "a", name := "A", share := true, telephony := true },
         { id := "b", name := "B", share := true, telephony := true }] =
      [contextMenuRoot,
       { id := "a", title := Title.raw "A",
         parentId := Option.some "contextMenuMultipleDevices",
         contexts := [] },
       { id := "a" ++ ":share", title := Title.msg "shareMessage",
         parentId := Option.some "a", contexts := CONTEXTS },
       { id := "a" ++ ":telephony", title := Title.msg "smsMessage",
         parentId := Option.some "a", contexts := CONTEXTS },
       { id := "b", title := Title.raw "B",
         parentId := Option.some "contextMenuMultipleDevices",
         contexts := [] },
       { id := "b" ++ ":share", title := Title.msg "shareMessage",
         parentId := Option.some "b", contexts := CONTEXTS },
       { id := "b" ++ ":telephony", title := Title.msg "smsMessage",
         parentId := Option.some "b", contexts := CONTEXTS }] :=
  c8_two_full_devices_menu
    { id := "a", name := "A", share := true, telephony := true }
    { id := "b", name := "B", share := true, telephony := true }
    { url := "https://example.com" } rfl rfl rfl rfl (by decide)

/-- Claim C9: round trip of the menu-identifier encoding — for a device
id free of the colon delimiter and an action share or telephony,
onContextItem on a click at identifier id:action reconstructs exactly
the original id and action in the outbound share command. -/
theorem c9_menu_id_roundtrip (id action : String)
    (lu su fu pu : Option String)
    (h1 : ':' ∉ id.toList)
    (h2 : action = "share" ∨ action = "telephony") :
    onContextItem
      { menuItemId := id ++ ":" ++ action, linkUrl := lu, srcUrl := su,
        frameUrl := fu, pageUrl := pu } =
      { type := some "share",
        data := MsgData.share
          { device := some id,
            url := firstTruthy [lu, su, fu, pu],
            action := some action } } := by
  have hac : ':' ∉ action.toList := by
    rcases h2 with h | h <;> subst h <;> decide
  have h1' : ':' ∉ id.data := h1
  have hac' : ':' ∉ action.data := hac
  have hsplit : splitOnChar ':' (id.data ++ ':' :: action.data) =
      [id.data, action.data] := by
    rw [splitOnChar_append_sep _ _ _ h1',
        splitOnChar_of_not_mem _ _ hac']
  simp [onContextItem, hsplit]

/-- Witness for claim C9 at a concrete identifier dev1:share. -/
theorem c9_menu_id_roundtrip_witness :
    onContextItem
      { menuItemId := "dev1" ++ ":" ++ "share",
        linkUrl := Option.some "https://l.example",
        srcUrl := Option.none, frameUrl := Option.none,
        pageUrl := Option.some "https://p.example" } =
      { type := some "share",
        data := MsgData.share
          { device := some "dev1",
            url := firstTruthy
              [Option.some "https://l.example", Option.none,
               Option.none, Option.some "https://p.example"],
            action := some "share" } } :=
  c9_menu_id_roundtrip "dev1" "share"
    (Option.some "https://l.example") Option.none Option.none
    (Option.some "https://p.example") (by decide) (Or.inl rfl)

/-- Claim C10: an inbound message with type connected and data true
leaves the roster's device list unchanged — the previously known
devices stay in place until a later devices message replaces them. -/
theorem c10_connected_true_preserves_devices (st : BgState) :
    ((onPortMessage (InMsg.connected true) st).state).devices =
      st.devices := by
  simp [onPortMessage]

end GSConnect
